import Mathlib

/-!
Shallow embedding of the CRI link controller (`src/lib/cri/cri_link.cpp`,
class `cri::cri_link`) of the flesnet repository, together with proofs of the
specified properties of its control surface: datapath configuration, pattern
generator configuration, DMA channel lifecycle and performance counters.

Hardware registers are modelled as natural numbers reduced modulo `2 ^ 32`
(the registers are 32-bit wide); a register file is a map from register
addresses to raw stored values, read back through a 32-bit reduction.
The pattern-generator rate, a C `float` in the source, is modelled as a
rational number; the source computation `65535.0f * (1.0 - val)` followed by a
`static_cast<uint16_t>` is exact real arithmetic followed by truncation toward
zero, which the rational model mirrors exactly (for the dyadic inputs of the
spec scenarios the IEEE evaluation is itself exact).
-/

namespace Cri

/-- Modelled from the spec: the `register_file` capability (declared in
`cri_link.hpp` / `register_file.hpp`, not under the visible sources) is an
addressed view over memory-mapped 32-bit registers. A register file is a map
from register address to the raw stored value. -/
abbrev RegFile := Nat → Nat

/-- Modelled from the spec: `get(register) -> uint32`; reads are 32-bit wide. -/
def RegFile.get_reg (rf : RegFile) (addr : Nat) : Nat :=
  rf addr % 2 ^ 32

/-- Modelled from the spec: `set(register, value)` writes a 32-bit value. -/
def RegFile.set_reg (rf : RegFile) (addr v : Nat) : RegFile :=
  fun a => if a = addr then v % 2 ^ 32 else rf a

/-- Modelled from the spec: `set(register, value, mask)` writes only the bits
selected by `mask`, preserving the others. -/
def RegFile.set_reg_mask (rf : RegFile) (addr v mask : Nat) : RegFile :=
  rf.set_reg addr ((rf.get_reg addr &&& ((2 ^ 32 - 1) ^^^ mask)) ||| (v &&& mask))

/-- Modelled from the spec: `set_bit(register, bit_index, enabled)` sets or
clears exactly one bit of the register. -/
def RegFile.set_bit (rf : RegFile) (addr bit : Nat) (enable : Bool) : RegFile :=
  if enable then
    rf.set_reg addr (rf.get_reg addr ||| (1 <<< bit))
  else
    rf.set_reg addr (rf.get_reg addr &&& ((2 ^ 32 - 1) ^^^ (1 <<< bit)))

/-- Modelled from the spec: register identifiers come from the register-map
header, which is not among the visible sources; they are modelled as distinct
abstract addresses (their concrete numeric offsets are irrelevant to the
claims, which never relate two registers at overlapping addresses). -/
def CRI_REG_PERF_INTERVAL : Nat := 0

def CRI_REG_GTX_DATAPATH_CFG : Nat := 1

def CRI_REG_GTX_MC_PGEN_CFG_L : Nat := 2

def CRI_REG_GTX_MC_PGEN_CFG_H : Nat := 3

def CRI_REG_GTX_MC_PGEN_MC_PENDING : Nat := 4

def CRI_REG_TESTREG_DMA : Nat := 5

def CRI_REG_TESTREG_DATA : Nat := 6

def CRI_REG_PERF_DMA_STALL : Nat := 7

def CRI_REG_PERF_EBUF_STALL : Nat := 8

def CRI_REG_PERF_RBUF_STALL : Nat := 9

def CRI_REG_PERF_N_EVENTS : Nat := 10

/-- `#define DMA_TRANSFER_SIZE 128` (cri_link.cpp line 15). -/
def DMA_TRANSFER_SIZE : Nat := 128

/-- The data-source selector `cri_link::data_source_t`. The enumerator names
`rx_disable`, `rx_user`, `rx_pgen` appear in the source (`operator<<`);
modelled from the spec: their 2-bit encodings (0, 1, 2) come from the missing
header, and undefined encodings of the 2-bit field map to an
implementation-defined invalid marker (`rx_invalid`). -/
inductive data_source_t where
  | rx_disable
  | rx_user
  | rx_pgen
  | rx_invalid
deriving DecidableEq

/-- The 2-bit register encoding of a data source. -/
def data_source_t.code : data_source_t → Nat
  | .rx_disable => 0
  | .rx_user => 1
  | .rx_pgen => 2
  | .rx_invalid => 3

/-- Decoding of the low 2-bit field (the `static_cast<data_source_t>` in
`cri_link::data_source`). -/
def data_source_t.ofCode (n : Nat) : data_source_t :=
  if n = 0 then .rx_disable
  else if n = 1 then .rx_user
  else if n = 2 then .rx_pgen
  else .rx_invalid

/-- Error taxonomy of the spec: `CriException("DMA channel not initialized")`
is the NotInitialized error; a violated `assert` precondition is the
ContractViolation error. -/
inductive cri_error where
  | contractViolation
  | notInitialized
deriving DecidableEq

/-- The DMA channel attached by `cri_link::init_dma`. The `dma_channel` class
itself is not among the visible sources; modelled from the spec: it owns the
two host ring buffers (base address and log2 size each) and the fixed transfer
granularity. -/
structure dma_channel where
  data_buffer : Nat
  data_buffer_log_size : Nat
  desc_buffer : Nat
  desc_buffer_log_size : Nat
  dma_transfer_size : Nat
deriving DecidableEq

/-- The performance snapshot `cri_link::link_perf_t`. -/
structure link_perf_t where
  pkt_cycle_cnt : Nat
  dma_stall : Nat
  data_buf_stall : Nat
  desc_buf_stall : Nat
  events : Nat
  gtx_cycle_cnt : Nat
  din_full_gtx : Nat
deriving DecidableEq

/-- The state of one `cri::cri_link` object: the two register-file domains,
the optional DMA channel and the cached members. The base addresses are
computed in the constructor and never reassigned. -/
structure link_state where
  m_link_index : Nat
  m_base_addr : Nat
  m_gtx_base_addr : Nat
  rfpkt : RegFile
  rfgtx : RegFile
  m_dma_channel : Option dma_channel
  m_reg_perf_interval_cached : Nat
  m_reg_gtx_perf_interval_cached : Nat

/-- The constructor `cri_link::cri_link(link_index, dev, bar)`:
`m_base_addr = (m_link_index + 1) * (1 << CRI_C_CH_ADDR_SEL)`, the gtx
register file is rooted at `m_base_addr + (1 << CRI_C_DMA_ADDR_SEL)`,
`m_dma_channel` starts empty (a default `unique_ptr`),
`m_reg_perf_interval_cached` is read from hardware and
`m_reg_gtx_perf_interval_cached = 1` (the `// TODO` stub in the source).
The shift constants `CRI_C_CH_ADDR_SEL` and `CRI_C_DMA_ADDR_SEL` live in the
missing header and are taken as parameters; the initial contents of the two
register domains stand for the hardware state at construction time. -/
def cri_link (link_index ch_addr_sel dma_addr_sel : Nat)
    (pkt_init gtx_init : RegFile) : link_state :=
  { m_link_index := link_index
    m_base_addr := (link_index + 1) * (1 <<< ch_addr_sel)
    m_gtx_base_addr := (link_index + 1) * (1 <<< ch_addr_sel) + (1 <<< dma_addr_sel)
    rfpkt := pkt_init
    rfgtx := gtx_init
    m_dma_channel := none
    m_reg_perf_interval_cached := pkt_init.get_reg CRI_REG_PERF_INTERVAL
    m_reg_gtx_perf_interval_cached := 1 }

/-- `cri_link::init_dma`: attaches a freshly constructed `dma_channel` with
transfer granularity `DMA_TRANSFER_SIZE`. -/
def init_dma (s : link_state)
    (data_buffer data_buffer_log_size desc_buffer desc_buffer_log_size : Nat) :
    link_state :=
  { s with
      m_dma_channel := some
        { data_buffer := data_buffer
          data_buffer_log_size := data_buffer_log_size
          desc_buffer := desc_buffer
          desc_buffer_log_size := desc_buffer_log_size
          dma_transfer_size := DMA_TRANSFER_SIZE } }

/-- `cri_link::deinit_dma`: `m_dma_channel = nullptr`. -/
def deinit_dma (s : link_state) : link_state :=
  { s with m_dma_channel := none }

/-- `cri_link::dma()`: returns the active channel, or throws
`CriException("DMA channel not initialized")` when none exists. -/
def dma (s : link_state) : Except cri_error dma_channel :=
  match s.m_dma_channel with
  | some ch => .ok ch
  | none => .error .notInitialized

/-- `cri_link::set_ready_for_data`: sets bit 2 of the gtx datapath-config
register. -/
def set_ready_for_data (s : link_state) (enable : Bool) : link_state :=
  { s with rfgtx := s.rfgtx.set_bit CRI_REG_GTX_DATAPATH_CFG 2 enable }

/-- `cri_link::enable_readout()`. -/
def enable_readout (s : link_state) : link_state :=
  set_ready_for_data s true

/-- `cri_link::disable_readout()`. -/
def disable_readout (s : link_state) : link_state :=
  set_ready_for_data s false

/-- `cri_link::set_data_source`: masked write of the source code into the low
2 bits of the gtx datapath-config register. -/
def set_data_source (s : link_state) (src : data_source_t) : link_state :=
  { s with rfgtx := s.rfgtx.set_reg_mask CRI_REG_GTX_DATAPATH_CFG src.code 0x3 }

/-- `cri_link::data_source()`: reads the datapath-config register and decodes
its low 2 bits. -/
def data_source (s : link_state) : data_source_t :=
  data_source_t.ofCode (s.rfgtx.get_reg CRI_REG_GTX_DATAPATH_CFG &&& 0x3)

/-- `cri_link::set_pgen_id`: masked write of the 16-bit equipment id into the
low half of the pattern-generator config register. -/
def set_pgen_id (s : link_state) (eq_id : Nat) : link_state :=
  { s with rfgtx := s.rfgtx.set_reg_mask CRI_REG_GTX_MC_PGEN_CFG_L eq_id 0xFFFF }

/-- `cri_link::set_pgen_rate(float val)`: `assert(val >= 0); assert(val <= 1);`
then `reg_val = static_cast<uint16_t>(65535.0f * (1.0 - val))`, written into
the high 16 bits of the pattern-generator config register. The failed
assertions are modelled as the spec's ContractViolation error; the float
computation is modelled as exact rational arithmetic followed by truncation
toward zero (the `static_cast<uint16_t>`), which matches the IEEE evaluation
exactly on dyadic inputs of at most 37 fractional bits. -/
def set_pgen_rate (s : link_state) (val : ℚ) : Except cri_error link_state :=
  if val < 0 then .error .contractViolation
  else if 1 < val then .error .contractViolation
  else
    .ok { s with
            rfgtx := s.rfgtx.set_reg_mask CRI_REG_GTX_MC_PGEN_CFG_L
              ((⌊(65535 : ℚ) * (1 - val)⌋).toNat <<< 16) 0xFFFF0000 }

/-- `cri_link::reset_pgen_mc_pending()`: pulse write of bit 0. -/
def reset_pgen_mc_pending (s : link_state) : link_state :=
  { s with rfgtx := s.rfgtx.set_bit CRI_REG_GTX_MC_PGEN_CFG_H 0 true }

/-- `cri_link::get_pgen_mc_pending()`. -/
def get_pgen_mc_pending (s : link_state) : Nat :=
  s.rfgtx.get_reg CRI_REG_GTX_MC_PGEN_MC_PENDING

/-- `cri_link::set_perf_interval(uint32_t interval)`: clamps the interval to
17000 ms, converts it to packet-domain cycles via
`interval * (pkt_clk * 1E-3)`, stores the cycle count in the cached member and
writes it to the hardware register. The clock constant `pkt_clk` lives in the
missing header and is taken as a parameter; the float conversion is modelled
as `interval * (pkt_clk / 1000)`, exact whenever `pkt_clk` is a multiple of
1000 Hz (any realistic clock), with the 32-bit reduction of the `uint32_t`
cached member made explicit. -/
def set_perf_interval (s : link_state) (interval pkt_clk : Nat) : link_state :=
  let clamped := if 17000 < interval then 17000 else interval
  let cycles := clamped * (pkt_clk / 1000) % 2 ^ 32
  { s with
      m_reg_perf_interval_cached := cycles
      rfpkt := s.rfpkt.set_reg CRI_REG_PERF_INTERVAL cycles }

/-- `cri_link::get_perf_interval_cycles_pkt()`: returns the cached value. -/
def get_perf_interval_cycles_pkt (s : link_state) : Nat :=
  s.m_reg_perf_interval_cached

/-- `cri_link::get_dma_stall()`. -/
def get_dma_stall (s : link_state) : Nat :=
  s.rfpkt.get_reg CRI_REG_PERF_DMA_STALL

/-- `cri_link::get_data_buf_stall()`. -/
def get_data_buf_stall (s : link_state) : Nat :=
  s.rfpkt.get_reg CRI_REG_PERF_EBUF_STALL

/-- `cri_link::get_desc_buf_stall()`. -/
def get_desc_buf_stall (s : link_state) : Nat :=
  s.rfpkt.get_reg CRI_REG_PERF_RBUF_STALL

/-- `cri_link::get_event_cnt()`. -/
def get_event_cnt (s : link_state) : Nat :=
  s.rfpkt.get_reg CRI_REG_PERF_N_EVENTS

/-- `cri_link::get_din_full_gtx()`: the hardware read is commented out;
`return 0; // TODO fake`. -/
def get_din_full_gtx (_s : link_state) : Nat :=
  0

/-- `cri_link::link_perf()`: assembles a fresh snapshot from the cached
interval, the packet-domain counter reads and the stubbed gtx-domain
members. -/
def link_perf (s : link_state) : link_perf_t :=
  { pkt_cycle_cnt := s.m_reg_perf_interval_cached
    dma_stall := get_dma_stall s
    data_buf_stall := get_data_buf_stall s
    desc_buf_stall := get_desc_buf_stall s
    events := get_event_cnt s
    gtx_cycle_cnt := s.m_reg_gtx_perf_interval_cached
    din_full_gtx := get_din_full_gtx s }

/-- One operation on a link or on the hardware state behind it. The two
`hw_write` operations model the hardware itself changing a register (counters
accumulating); the remaining constructors are the mutating or snapshotting
methods of `cri_link`. -/
inductive op where
  | op_set_data_source (src : data_source_t)
  | op_set_ready_for_data (enable : Bool)
  | op_enable_readout
  | op_disable_readout
  | op_set_pgen_id (eq_id : Nat)
  | op_set_pgen_rate (val : ℚ)
  | op_reset_pgen_mc_pending
  | op_set_perf_interval (interval pkt_clk : Nat)
  | op_init_dma (db dls rb rls : Nat)
  | op_deinit_dma
  | op_link_perf
  | op_hw_write_pkt (addr v : Nat)
  | op_hw_write_gtx (addr v : Nat)

/-- Effect of one operation on the link state. `link_perf` is a pure read; a
`set_pgen_rate` whose precondition fails aborts before any register write, so
the state is unchanged. -/
def step (o : op) (s : link_state) : link_state :=
  match o with
  | .op_set_data_source src => set_data_source s src
  | .op_set_ready_for_data enable => set_ready_for_data s enable
  | .op_enable_readout => enable_readout s
  | .op_disable_readout => disable_readout s
  | .op_set_pgen_id eq_id => set_pgen_id s eq_id
  | .op_set_pgen_rate val =>
      match set_pgen_rate s val with
      | .ok t => t
      | .error _ => s
  | .op_reset_pgen_mc_pending => reset_pgen_mc_pending s
  | .op_set_perf_interval interval pkt_clk => set_perf_interval s interval pkt_clk
  | .op_init_dma db dls rb rls => init_dma s db dls rb rls
  | .op_deinit_dma => deinit_dma s
  | .op_link_perf => s
  | .op_hw_write_pkt addr v => { s with rfpkt := s.rfpkt.set_reg addr v }
  | .op_hw_write_gtx addr v => { s with rfgtx := s.rfgtx.set_reg addr v }

/-- A link together with the list of snapshots `link_perf()` has already
returned to its caller (each snapshot is a value copy, `link_perf_t` being
returned by value in the source). -/
structure world where
  link : link_state
  snapshots : List link_perf_t

/-- Effect of one operation on the world: `link_perf` hands a fresh snapshot
copy to the caller, every operation advances the link state. -/
def wstep (o : op) (w : world) : world :=
  match o with
  | .op_link_perf =>
      { link := step o w.link, snapshots := w.snapshots ++ [link_perf w.link] }
  | _ => { link := step o w.link, snapshots := w.snapshots }

/-- Running a sequence of operations on the world. -/
def wrun (ops : List op) (w : world) : world :=
  ops.foldl (fun w o => wstep o w) w

/-- The all-zero register file, used for concrete witness states. -/
def rf0 : RegFile := fun _ => 0

/-- A concrete link state: link index 2, arbitrary concrete address-select
shifts, all registers zero at construction. -/
def s0 : link_state := cri_link 2 7 5 rf0 rf0

/-- Register reads are 32-bit wide. -/
theorem get_reg_lt (rf : RegFile) (addr : Nat) : rf.get_reg addr < 2 ^ 32 :=
  Nat.mod_lt _ (by norm_num)

/-- Reading back a plain register write. -/
theorem get_reg_set_reg_self (rf : RegFile) (addr v : Nat) :
    (rf.set_reg addr v).get_reg addr = v % 2 ^ 32 := by
  simp [RegFile.get_reg, RegFile.set_reg, Nat.mod_mod_of_dvd _ dvd_rfl]

/-- Bit-level description of a masked register write: inside the mask the new
value's bit is stored, outside it the old register bit is preserved, and
nothing survives beyond the 32-bit width. -/
theorem get_set_reg_mask_testBit (rf : RegFile) (addr v mask i : Nat) :
    ((rf.set_reg_mask addr v mask).get_reg addr).testBit i =
      (decide (i < 32) &&
        cond (mask.testBit i) (v.testBit i) ((rf.get_reg addr).testBit i)) := by
  simp only [RegFile.set_reg_mask, RegFile.set_reg, RegFile.get_reg, if_pos rfl,
    if_true]
  simp only [Nat.testBit_mod_two_pow, Nat.testBit_or, Nat.testBit_and,
    Nat.testBit_xor, Nat.testBit_two_pow_sub_one]
  by_cases h32 : i < 32
  · by_cases hmi : mask.testBit i <;> simp [h32, hmi]
  · simp [h32]

/-- Bit-level description of a single-bit register write: the selected bit
takes the requested value, every other bit is preserved. -/
theorem get_set_bit_testBit (rf : RegFile) (addr bit i : Nat) (enable : Bool) :
    ((rf.set_bit addr bit enable).get_reg addr).testBit i =
      (decide (i < 32) &&
        (if bit = i then enable else (rf.get_reg addr).testBit i)) := by
  have hone : (1 : Nat) <<< bit = 2 ^ bit := by
    simp [Nat.shiftLeft_eq]
  cases enable <;>
    simp only [RegFile.set_bit, RegFile.set_reg, RegFile.get_reg, if_pos rfl,
      Bool.false_eq_true, if_false, if_true, hone] <;>
    simp only [Nat.testBit_mod_two_pow, Nat.testBit_or, Nat.testBit_and,
      Nat.testBit_xor, Nat.testBit_two_pow_sub_one, Nat.testBit_two_pow] <;>
    by_cases hb : bit = i <;> by_cases h32 : i < 32 <;> simp [hb, h32]

/-- The bits selected by the mask read back as the written value's bits. -/
theorem get_set_reg_mask_and_mask (rf : RegFile) (addr v mask : Nat)
    (hm : mask < 2 ^ 32) :
    (rf.set_reg_mask addr v mask).get_reg addr &&& mask = v &&& mask := by
  apply Nat.eq_of_testBit_eq
  intro i
  simp only [Nat.testBit_and, get_set_reg_mask_testBit]
  by_cases h32 : i < 32
  · by_cases hmi : mask.testBit i <;> simp [h32, hmi]
  · have hmf : mask.testBit i = false :=
      Nat.testBit_lt_two_pow
        (lt_of_lt_of_le hm (Nat.pow_le_pow_right (by norm_num) (le_of_not_lt h32)))
    simp [h32, hmf]

/-- Reading the high half back after the pattern-generator style masked write
of a 16-bit value shifted into the high half. -/
theorem get_set_reg_mask_high_half (rf : RegFile) (addr v : Nat)
    (hv : v < 2 ^ 16) :
    (rf.set_reg_mask addr (v <<< 16) 0xFFFF0000).get_reg addr >>> 16 = v := by
  apply Nat.eq_of_testBit_eq
  intro j
  rw [Nat.testBit_shiftRight, get_set_reg_mask_testBit]
  have hmask : (0xFFFF0000 : Nat) = (2 ^ 16 - 1) <<< 16 := by decide
  rw [hmask, Nat.testBit_shiftLeft, Nat.testBit_shiftLeft]
  simp only [Nat.add_sub_cancel_left, Nat.testBit_two_pow_sub_one]
  by_cases hj : j < 16
  · simp [show 16 + j < 32 from by omega, hj]
  · have hvf : v.testBit j = false :=
      Nat.testBit_lt_two_pow
        (lt_of_lt_of_le hv (Nat.pow_le_pow_right (by norm_num) (le_of_not_lt hj)))
    simp [show ¬ 16 + j < 32 from by omega, hvf]

/-- A register read has no bits at or beyond the 32-bit width. -/
theorem get_reg_testBit_ge32 (rf : RegFile) (addr i : Nat) (h : ¬ i < 32) :
    (rf.get_reg addr).testBit i = false :=
  Nat.testBit_lt_two_pow
    (lt_of_lt_of_le (get_reg_lt rf addr)
      (Nat.pow_le_pow_right (by norm_num) (le_of_not_lt h)))

/-- Writing bit 2 of a register leaves its low 2-bit field unchanged. -/
theorem get_set_bit2_and3 (rf : RegFile) (addr : Nat) (en : Bool) :
    (rf.set_bit addr 2 en).get_reg addr &&& 3 = rf.get_reg addr &&& 3 := by
  apply Nat.eq_of_testBit_eq
  intro i
  simp only [Nat.testBit_and, get_set_bit_testBit]
  have h3 : (3 : Nat) = 2 ^ 2 - 1 := by norm_num
  rw [h3]
  simp only [Nat.testBit_two_pow_sub_one]
  by_cases hi : i < 2
  · simp [show (2 : Nat) ≠ i from by omega, hi, show i < 32 from by omega]
  · simp [hi]

/-- A successful `set_pgen_rate` changes only the gtx register file. -/
theorem set_pgen_rate_ok_fields (s : link_state) (val : ℚ) (t : link_state)
    (h : set_pgen_rate s val = .ok t) :
    t.m_link_index = s.m_link_index ∧ t.m_base_addr = s.m_base_addr ∧
      t.m_gtx_base_addr = s.m_gtx_base_addr ∧ t.rfpkt = s.rfpkt ∧
      t.m_dma_channel = s.m_dma_channel ∧
      t.m_reg_perf_interval_cached = s.m_reg_perf_interval_cached ∧
      t.m_reg_gtx_perf_interval_cached = s.m_reg_gtx_perf_interval_cached := by
  unfold set_pgen_rate at h
  split_ifs at h
  simp only [Except.ok.injEq] at h
  rw [← h]
  exact ⟨rfl, rfl, rfl, rfl, rfl, rfl, rfl⟩

/-- No operation ever changes the construction-time members `m_link_index`,
`m_base_addr`, `m_gtx_base_addr`, nor the stubbed gtx interval cache. -/
theorem step_preserves_immutable (o : op) (s : link_state) :
    (step o s).m_link_index = s.m_link_index ∧
      (step o s).m_base_addr = s.m_base_addr ∧
      (step o s).m_gtx_base_addr = s.m_gtx_base_addr ∧
      (step o s).m_reg_gtx_perf_interval_cached =
        s.m_reg_gtx_perf_interval_cached := by
  cases o
  case op_set_pgen_rate val =>
    simp only [step]
    cases hrr : set_pgen_rate s val with
    | ok t =>
        have hf := set_pgen_rate_ok_fields s val t hrr
        exact ⟨hf.1, hf.2.1, hf.2.2.1, hf.2.2.2.2.2.2⟩
    | error e => exact ⟨rfl, rfl, rfl, rfl⟩
  all_goals
    simp [step, set_data_source, set_ready_for_data, enable_readout,
      disable_readout, set_pgen_id, reset_pgen_mc_pending, set_perf_interval,
      init_dma, deinit_dma]

/-- One world step only ever appends to the list of returned snapshots. -/
theorem wstep_snapshots_extend (o : op) (w : world) :
    ∃ u, (wstep o w).snapshots = w.snapshots ++ u := by
  cases o
  case op_link_perf => exact ⟨[link_perf w.link], rfl⟩
  all_goals exact ⟨[], by simp [wstep]⟩

/-- Running any operation sequence only ever appends to the list of returned
snapshots. -/
theorem wrun_snapshots_extend (ops : List op) (w : world) :
    ∃ u, (wrun ops w).snapshots = w.snapshots ++ u := by
  induction ops generalizing w with
  | nil => exact ⟨[], by simp [wrun]⟩
  | cons o rest ih =>
      obtain ⟨u, hu⟩ := wstep_snapshots_extend o w
      obtain ⟨t, ht⟩ := ih (wstep o w)
      refine ⟨u ++ t, ?_⟩
      have hrun : wrun (o :: rest) w = wrun rest (wstep o w) := rfl
      rw [hrun, ht, hu, List.append_assoc]

/-- C1 (counterexample): at `fraction = 1/2` the source writes threshold
`32767` (truncation of `32767.5`) into the high half of the
pattern-generator config register, while the claimed formula
`round((1 - fraction) * 65535)` gives `32768`. -/
theorem c1_round_counterexample :
    (step (op.op_set_pgen_rate (1/2)) s0).rfgtx.get_reg
        CRI_REG_GTX_MC_PGEN_CFG_L >>> 16 = 32767 ∧
      round ((1 - (1/2 : ℚ)) * 65535) = 32768 ∧
      (32767 : Nat) ≠ 32768 := by
  refine ⟨?_, ?_, by decide⟩
  · have hfl : (⌊(65535 : ℚ) * (1 - 1/2)⌋).toNat = 32767 := by
      have h : ⌊(65535 : ℚ) * (1 - 1/2)⌋ = 32767 := by
        norm_num [Int.floor_eq_iff]
      rw [h]
      rfl
    have hok : set_pgen_rate s0 (1/2) = Except.ok
        { s0 with
            rfgtx := s0.rfgtx.set_reg_mask CRI_REG_GTX_MC_PGEN_CFG_L
              ((⌊(65535 : ℚ) * (1 - 1/2)⌋).toNat <<< 16) 0xFFFF0000 } := by
      rw [set_pgen_rate, if_neg (by norm_num), if_neg (by norm_num)]
    simp only [step, hok]
    rw [hfl]
    exact get_set_reg_mask_high_half _ _ 32767 (by decide)
  · rw [round_eq]
    norm_num

/-- C1 (amended): for every `fraction ∈ [0, 1]`, `set_pgen_rate` succeeds and
writes into the high 16 bits of the pattern-generator config register the
threshold `trunc((1 - fraction) * 65535)` (truncation toward zero, not
rounding to nearest). -/
theorem c1_pgen_threshold (s : link_state) (val : ℚ)
    (h0 : 0 ≤ val) (h1 : val ≤ 1) :
    ∃ t, set_pgen_rate s val = Except.ok t ∧
      t.rfgtx.get_reg CRI_REG_GTX_MC_PGEN_CFG_L >>> 16 =
        (⌊(1 - val) * 65535⌋).toNat := by
  rw [set_pgen_rate, if_neg (not_lt.mpr h0), if_neg (not_lt.mpr h1)]
  refine ⟨_, rfl, ?_⟩
  have hle : (65535 : ℚ) * (1 - val) ≤ 65535 := by nlinarith
  have hfl : ⌊(65535 : ℚ) * (1 - val)⌋ ≤ 65535 := by
    have := Int.floor_le_floor hle
    simpa using this
  have hlt : (⌊(65535 : ℚ) * (1 - val)⌋).toNat < 2 ^ 16 := by
    have := Int.toNat_le_toNat hfl
    norm_num at this
    omega
  rw [get_set_reg_mask_high_half _ _ _ hlt, mul_comm]

/-- C1 (witness): the amended theorem applied at `fraction = 0`, where the
written threshold is `65535`. -/
theorem c1_pgen_threshold_witness :
    ∃ t, set_pgen_rate s0 0 = Except.ok t ∧
      t.rfgtx.get_reg CRI_REG_GTX_MC_PGEN_CFG_L >>> 16 =
        (⌊((1 : ℚ) - 0) * 65535⌋).toNat :=
  c1_pgen_threshold s0 0 le_rfl (by norm_num)

/-- C2: for every real data source, `set_data_source` followed by
`data_source` returns the same source, and `set_data_source` never alters
bit 2 (the ready-for-data bit) of the datapath-config register. -/
theorem c2_data_source_roundtrip (s : link_state) (src : data_source_t)
    (h : src ≠ data_source_t.rx_invalid) :
    data_source (set_data_source s src) = src ∧
      ((set_data_source s src).rfgtx.get_reg
          CRI_REG_GTX_DATAPATH_CFG).testBit 2 =
        (s.rfgtx.get_reg CRI_REG_GTX_DATAPATH_CFG).testBit 2 := by
  constructor
  · have ha := get_set_reg_mask_and_mask s.rfgtx CRI_REG_GTX_DATAPATH_CFG
      src.code 0x3 (by norm_num)
    simp only [data_source, set_data_source]
    rw [ha]
    cases src
    · rfl
    · rfl
    · rfl
    · exact absurd rfl h
  · simp only [set_data_source]
    rw [get_set_reg_mask_testBit]
    simp [show ((0x3 : Nat).testBit 2) = false from by decide]

/-- C2 (witness): the round trip and ready-bit preservation at the concrete
state `s0` with source `rx_pgen`. -/
theorem c2_data_source_roundtrip_witness :
    data_source (set_data_source s0 data_source_t.rx_pgen) =
        data_source_t.rx_pgen ∧
      ((set_data_source s0 data_source_t.rx_pgen).rfgtx.get_reg
          CRI_REG_GTX_DATAPATH_CFG).testBit 2 =
        (s0.rfgtx.get_reg CRI_REG_GTX_DATAPATH_CFG).testBit 2 :=
  c2_data_source_roundtrip s0 data_source_t.rx_pgen (by decide)

/-- C3 (counterexample): the constructor initializes the gtx interval cache
to `1`, so the `gtx_cycle_cnt` field of every snapshot of a freshly
constructed link is `1`, not `0` as claimed. -/
theorem c3_gtx_cycle_cnt_counterexample :
    (link_perf s0).gtx_cycle_cnt = 1 ∧ (1 : Nat) ≠ 0 :=
  ⟨rfl, by decide⟩

/-- C3 (amended): `get_din_full_gtx` and the `din_full_gtx` snapshot field
are always `0`; the `gtx_cycle_cnt` snapshot field always equals the cached
gtx interval member, which the constructor stubs to the constant `1` and
which no operation ever changes. -/
theorem c3_gtx_counters_stubbed :
    (∀ s, get_din_full_gtx s = 0) ∧
      (∀ s, (link_perf s).din_full_gtx = 0) ∧
      (∀ link_index ch_addr_sel dma_addr_sel p g,
        (cri_link link_index ch_addr_sel dma_addr_sel
            p g).m_reg_gtx_perf_interval_cached = 1) ∧
      (∀ o s, (step o s).m_reg_gtx_perf_interval_cached =
        s.m_reg_gtx_perf_interval_cached) ∧
      (∀ s, (link_perf s).gtx_cycle_cnt = s.m_reg_gtx_perf_interval_cached) :=
  ⟨fun _ => rfl, fun _ => rfl, fun _ _ _ _ _ => rfl,
    fun o s => (step_preserves_immutable o s).2.2.2, fun _ => rfl⟩

/-- C4: `dma()` fails with the NotInitialized error on a freshly constructed
link, returns exactly the live channel after `init_dma`, and fails with
NotInitialized again after `deinit_dma`. -/
theorem c4_dma_lifecycle :
    (∀ link_index ch_addr_sel dma_addr_sel p g,
      dma (cri_link link_index ch_addr_sel dma_addr_sel p g) =
        Except.error cri_error.notInitialized) ∧
      (∀ s db dls rb rls,
        dma (init_dma s db dls rb rls) =
          Except.ok
            { data_buffer := db
              data_buffer_log_size := dls
              desc_buffer := rb
              desc_buffer_log_size := rls
              dma_transfer_size := DMA_TRANSFER_SIZE }) ∧
      (∀ s, dma (deinit_dma s) = Except.error cri_error.notInitialized) :=
  ⟨fun _ _ _ _ _ => rfl, fun _ _ _ _ _ => rfl, fun _ => rfl⟩

/-- C5: `set_perf_interval` clamps the interval to 17000 ms, converts the
clamped value to packet-domain cycles, writes the cycle count to the
perf-interval register, and the cached value read back through
`get_perf_interval_cycles_pkt` equals the register value written. -/
theorem c5_perf_interval (s : link_state) (interval pkt_clk : Nat) :
    get_perf_interval_cycles_pkt (set_perf_interval s interval pkt_clk) =
        min interval 17000 * (pkt_clk / 1000) % 2 ^ 32 ∧
      (set_perf_interval s interval pkt_clk).rfpkt.get_reg
          CRI_REG_PERF_INTERVAL =
        get_perf_interval_cycles_pkt (set_perf_interval s interval pkt_clk) ∧
      (17000 < interval →
        set_perf_interval s interval pkt_clk =
          set_perf_interval s 17000 pkt_clk) := by
  refine ⟨?_, ?_, ?_⟩
  · simp only [get_perf_interval_cycles_pkt, set_perf_interval]
    rcases Nat.lt_or_ge 17000 interval with h | h
    · rw [if_pos h, Nat.min_eq_right (le_of_lt h)]
    · rw [if_neg (not_lt.mpr h), Nat.min_eq_left h]
  · simp only [get_perf_interval_cycles_pkt, set_perf_interval]
    rw [get_reg_set_reg_self]
    exact Nat.mod_mod_of_dvd _ dvd_rfl
  · intro h
    simp [set_perf_interval, if_pos h]

/-- C5 (witness): an interval of 20000 ms is clamped to 17000 ms. -/
theorem c5_perf_interval_witness :
    set_perf_interval s0 20000 250000000 =
      set_perf_interval s0 17000 250000000 :=
  (c5_perf_interval s0 20000 250000000).2.2 (by decide)

/-- C6: `set_pgen_rate` fails with the ContractViolation error (without any
register write, since no state is produced) for every fraction outside
`[0, 1]`, and succeeds for every fraction inside `[0, 1]`. -/
theorem c6_pgen_rate_contract (s : link_state) (val : ℚ) :
    ((val < 0 ∨ 1 < val) →
      set_pgen_rate s val = Except.error cri_error.contractViolation) ∧
      (0 ≤ val → val ≤ 1 → ∃ t, set_pgen_rate s val = Except.ok t) := by
  constructor
  · rintro (h | h)
    · rw [set_pgen_rate, if_pos h]
    · rw [set_pgen_rate, if_neg (by linarith), if_pos h]
  · intro h0 h1
    rw [set_pgen_rate, if_neg (not_lt.mpr h0), if_neg (not_lt.mpr h1)]
    exact ⟨_, rfl⟩

/-- C6 (witness): the fraction 2 fails with ContractViolation, the fraction
1/2 succeeds. -/
theorem c6_pgen_rate_contract_witness :
    set_pgen_rate s0 2 = Except.error cri_error.contractViolation ∧
      ∃ t, set_pgen_rate s0 (1/2) = Except.ok t :=
  ⟨(c6_pgen_rate_contract s0 2).1 (Or.inr (by norm_num)),
    (c6_pgen_rate_contract s0 (1/2)).2 (by norm_num) (by norm_num)⟩

/-- C7: snapshots returned by `link_perf` are frozen value copies: after any
sequence of operations on the link or on the hardware registers, the list of
previously returned snapshots is still there, every field unchanged. -/
theorem c7_snapshots_frozen (w : world) (ops : List op) :
    ((wrun ops w).snapshots).take w.snapshots.length = w.snapshots := by
  obtain ⟨t, ht⟩ := wrun_snapshots_extend ops w
  rw [ht]
  exact List.take_left w.snapshots t

/-- C8: the packet-domain base address equals
`(link_index + 1) * 2 ^ CH_ADDR_SEL_SHIFT`, the transceiver-domain base
equals the packet-domain base plus `2 ^ DMA_ADDR_SEL_SHIFT`, and no operation
ever changes either member after construction. -/
theorem c8_base_addresses (link_index ch_addr_sel dma_addr_sel : Nat)
    (p g : RegFile) :
    (cri_link link_index ch_addr_sel dma_addr_sel p g).m_base_addr =
        (link_index + 1) * 2 ^ ch_addr_sel ∧
      (cri_link link_index ch_addr_sel dma_addr_sel p g).m_gtx_base_addr =
        (cri_link link_index ch_addr_sel dma_addr_sel p g).m_base_addr +
          2 ^ dma_addr_sel ∧
      (∀ s o, (step o s).m_base_addr = s.m_base_addr ∧
        (step o s).m_gtx_base_addr = s.m_gtx_base_addr) :=
  ⟨by simp [cri_link, Nat.shiftLeft_eq],
    by simp [cri_link, Nat.shiftLeft_eq],
    fun s o => ⟨(step_preserves_immutable o s).2.1,
      (step_preserves_immutable o s).2.2.1⟩⟩

/-- C9: `deinit_dma` on a link with no DMA channel leaves the whole state
unchanged, and running it twice from any state equals running it once. -/
theorem c9_deinit_idempotent :
    (∀ s, s.m_dma_channel = none → deinit_dma s = s) ∧
      (∀ s, deinit_dma (deinit_dma s) = deinit_dma s) := by
  constructor
  · intro s h
    cases s
    simp_all [deinit_dma]
  · intro s
    rfl

/-- C9 (witness): `deinit_dma` is a no-op on the freshly constructed `s0`,
which has no DMA channel. -/
theorem c9_deinit_idempotent_witness : deinit_dma s0 = s0 :=
  c9_deinit_idempotent.1 s0 rfl

/-- C10: `enable_readout` and `disable_readout` touch only bit 2 of the
datapath-config register: `data_source` is unchanged by them, and every bit
other than bit 2 is preserved. -/
theorem c10_readout_touches_only_bit2 (s : link_state) :
    data_source (enable_readout s) = data_source s ∧
      data_source (disable_readout s) = data_source s ∧
      (∀ i, i ≠ 2 →
        ((enable_readout s).rfgtx.get_reg
            CRI_REG_GTX_DATAPATH_CFG).testBit i =
          (s.rfgtx.get_reg CRI_REG_GTX_DATAPATH_CFG).testBit i ∧
        ((disable_readout s).rfgtx.get_reg
            CRI_REG_GTX_DATAPATH_CFG).testBit i =
          (s.rfgtx.get_reg CRI_REG_GTX_DATAPATH_CFG).testBit i) := by
  refine ⟨?_, ?_, ?_⟩
  · simp only [data_source, enable_readout, set_ready_for_data]
    rw [get_set_bit2_and3]
  · simp only [data_source, disable_readout, set_ready_for_data]
    rw [get_set_bit2_and3]
  · intro i hi
    constructor <;>
      simp only [enable_readout, disable_readout, set_ready_for_data] <;>
      rw [get_set_bit_testBit] <;>
      by_cases h32 : i < 32 <;>
      simp [show (2 : Nat) ≠ i from fun hh => hi hh.symm, h32,
        get_reg_testBit_ge32]

/-- C10 (witness): bit 0 of the datapath-config register of `s0` is
preserved by both readout toggles. -/
theorem c10_readout_touches_only_bit2_witness :
    ((enable_readout s0).rfgtx.get_reg CRI_REG_GTX_DATAPATH_CFG).testBit 0 =
        (s0.rfgtx.get_reg CRI_REG_GTX_DATAPATH_CFG).testBit 0 ∧
      ((disable_readout s0).rfgtx.get_reg
          CRI_REG_GTX_DATAPATH_CFG).testBit 0 =
        (s0.rfgtx.get_reg CRI_REG_GTX_DATAPATH_CFG).testBit 0 :=
  (c10_readout_touches_only_bit2 s0).2.2 0 (by decide)

end Cri
